import Mathlib

/-!
Verification of the referral-agent pipeline (backend/agent.py and
backend/main.py) against its natural-language specification.

Python dynamic values are shallowly embedded as the inductive `Json` type
(Python dicts are `Json.obj` association lists with distinct keys, Python
`None` is `Json.null`).  Fallible Python code is embedded in
`Except PyError`; an `Except.error` value marks the exception the Python
code would raise at that point.  Calls to the language-model service are
abstracted by their observable outcome (`LLMResponse`): the service either
returned no content, returned text that `json.loads` rejects, or returned
text that parses to a given `Json` value.
-/

/-- A Python/JSON value.  Numbers are modelled as integers; none of the
verified code paths inspects a numeric value other than for truthiness. -/
inductive Json where
  | null
  | bool (b : Bool)
  | num (n : Int)
  | str (s : String)
  | arr (elems : List Json)
  | obj (fields : List (String × Json))

/-- Python truthiness (`bool(x)`): `None`, `False`, `0`, `""`, `[]`, `{}`
are falsy, everything else is truthy. -/
def truthy : Json → Bool
  | .null => false
  | .bool b => b
  | .num n => n != 0
  | .str s => s ≠ ""
  | .arr [] => false
  | .arr (_ :: _) => true
  | .obj [] => false
  | .obj (_ :: _) => true

/-- Whether a value is a Python dict. -/
def isObj : Json → Bool
  | .obj _ => true
  | _ => false

/-- Dict lookup `d[k]` as an option (keys of a Python dict are distinct,
so first match is the match). -/
def objLookup (fs : List (String × Json)) (k : String) : Option Json :=
  fs.lookup k

/-- Python `d.get(k, default)` on a known dict. -/
def objGetD (fs : List (String × Json)) (k : String) (d : Json) : Json :=
  (objLookup fs k).getD d

/-- The exception classes distinguished by the worker loop's handlers
(`agent.py` lines 317-323). -/
inductive PyError where
  | jsonDecodeError
  | keyError
  | typeError
  | attributeError
deriving DecidableEq

/-- Python `d.get(k, default)` on an arbitrary value: raises
`AttributeError` when the receiver is not a dict. -/
def pyGet (j : Json) (k : String) (d : Json) : Except PyError Json :=
  match j with
  | .obj fs => .ok (objGetD fs k d)
  | _ => .error .attributeError

/-- Observable outcome of one `chat_with_gpt4` call, abstracting the
language-model service: the response content was `None`, was text that
`json.loads` rejects, or was text that parses to the given value. -/
inductive LLMResponse where
  | noResponse
  | notJson
  | json (j : Json)

/-- Observable outcome of `json.loads` on a stored/queued text value. -/
inductive Parsed where
  | notJson
  | json (j : Json)

/-- Whether `pre` is a prefix of `l`, by characters. -/
def isPrefixChars : List Char → List Char → Bool
  | [], _ => true
  | _ :: _, [] => false
  | p :: ps, x :: xs => p == x && isPrefixChars ps xs

/-- Whether `pat` occurs as a contiguous run inside `hay`. -/
def strHasSub : List Char → List Char → Bool
  | [], pat => pat.isEmpty
  | hay@(_ :: t), pat => isPrefixChars pat hay || strHasSub t pat

/-- Python `pat in s` substring test. -/
def strContains (s pat : String) : Bool := strHasSub s.data pat.data

/-- Python `s.endswith(suffix)`. -/
def strEndsWith (s suffix : String) : Bool :=
  isPrefixChars suffix.data.reverse s.data.reverse

/-! ## Validation Engine — `check_required_fields` (agent.py lines 87-132) -/

/-- The fixed required-field list of `check_required_fields`. -/
def requiredFields : List String :=
  ["referring_provider.name",
   "referring_provider.contact",
   "receiving_provider.name",
   "receiving_provider.contact",
   "patient.name",
   "patient.date_of_birth",
   "reason_for_referral",
   "requested_action"]

/-- Helper for `splitParts`: split on the separator character,
accumulating the current piece in reverse. -/
def splitCharsAux (c : Char) : List Char → List Char → List String
  | [], acc => [String.mk acc.reverse]
  | x :: xs, acc =>
    if x == c then String.mk acc.reverse :: splitCharsAux c xs []
    else splitCharsAux c xs (x :: acc)

/-- `field.split(".")` (every call site splits on the one-character
separator `"."`, so splitting on the character is a faithful model,
empty pieces between consecutive dots included). -/
def splitParts (field : String) : List String := splitCharsAux '.' field.data []

/-- The nested-field traversal loop (agent.py lines 110-117): walk the
parts; `none` when some segment's holder is not a dict or lacks the key
(`field_missing = True`), otherwise the terminal value. -/
def traversePath (j : Json) : List String → Option Json
  | [] => some j
  | p :: ps =>
    match j with
    | .obj fs =>
      match objLookup fs p with
      | some v => traversePath v ps
      | none => none
    | _ => none

/-- The value of
`any([contact.get("phone"), contact.get("email"), contact.get("address")])`
on a contact dict with fields `cfs`. -/
def anyThree (cfs : List (String × Json)) : Bool :=
  truthy (objGetD cfs "phone" .null) ||
  truthy (objGetD cfs "email" .null) ||
  truthy (objGetD cfs "address" .null)

/-- The contact special check (agent.py line 124):
`any([contact.get("phone"), contact.get("email"), contact.get("address")])`.
Raises `AttributeError` when `contact` is not a dict. -/
def contactAny (contact : Json) : Except PyError Bool :=
  match contact with
  | .obj cfs => .ok (anyThree cfs)
  | _ => .error .attributeError

/-- The per-field body of the `for field in required_fields` loop
(agent.py lines 106-129), returning the entries this field appends to
`missing_fields`.  The top-level branch models Python `in`/indexing on
non-dict data: membership on a string is a substring test and on a list is
element equality, a hit then raises `TypeError` at `data[field]`, and `in`
on a number or boolean raises `TypeError` outright. -/
def checkField (data : Json) (field : String) : Except PyError (List String) :=
  if strContains field "." then
    match traversePath data (splitParts field) with
    | none => .ok [field]
    | some cur =>
      if truthy cur then
        if strEndsWith field ".contact" then
          match contactAny cur with
          | .ok true => .ok []
          | .ok false => .ok [field ++ " (phone, email, or address)"]
          | .error e => .error e
        else .ok []
      else .ok [field]
  else
    match data with
    | .obj fs =>
      .ok (match objLookup fs field with
           | none => [field]
           | some v => if truthy v then [] else [field])
    | .str s => if strContains s field then .error .typeError else .ok [field]
    | .arr es => if es.any (fun e => match e with | .str t => t = field | _ => false)
                 then .error .typeError else .ok [field]
    | _ => .error .typeError

/-- The whole loop over a list of fields, appending in order and
propagating the first exception. -/
def checkFields (data : Json) : List String → Except PyError (List String)
  | [] => .ok []
  | f :: rest =>
    match checkField data f with
    | .error e => .error e
    | .ok e =>
      match checkFields data rest with
      | .error e' => .error e'
      | .ok r => .ok (e ++ r)

/-- `check_required_fields` (agent.py lines 87-132). -/
def check_required_fields (data : Json) : Except PyError (Bool × List String) :=
  if truthy data then
    match checkFields data requiredFields with
    | .error e => .error e
    | .ok miss => .ok (miss.isEmpty, miss)
  else
    .ok (false, ["All fields - invalid JSON response"])

/-! ## Extraction Client — `llm_assistend_extraction` (agent.py lines 65-85) -/

/-- `llm_assistend_extraction`: `json.loads` on the response content; a
`None` content or a `JSONDecodeError` yields `None`; the parsed value is
returned unchanged otherwise (a parsed JSON `null` is Python `None`). -/
def llm_assistend_extraction (response : LLMResponse) : Json :=
  match response with
  | .noResponse => .null
  | .notJson => .null
  | .json j => j

/-! ## Contact resolution — `get_contact_info` (agent.py lines 221-237) -/

/-- The no-contact sentinel string returned by `get_contact_info`. -/
def noContactMsg : String := "No contact information available"

/-- `get_contact_info`: `provider_data.get('contact', {})`, then the first
truthy channel in the order email, phone, address, else the sentinel
string.  `.get` on a non-dict provider or contact raises. -/
def get_contact_info (provider_data : Json) : Except PyError Json :=
  match provider_data with
  | .obj pfs =>
    match objGetD pfs "contact" (.obj []) with
    | .obj cfs =>
      let em := objGetD cfs "email" .null
      let ph := objGetD cfs "phone" .null
      let ad := objGetD cfs "address" .null
      if truthy em then .ok em
      else if truthy ph then .ok ph
      else if truthy ad then .ok ad
      else .ok (.str noContactMsg)
    | _ => .error .attributeError
  | _ => .error .attributeError

/-- Python `x == "No contact information available"` on an arbitrary
value (only a string can compare equal). -/
def isNoContact : Json → Bool
  | .str s => s = noContactMsg
  | _ => false

/-- The contact-target resolution of the router (agent.py lines 295-297):
referring provider first, receiving provider when the first lookup
returned the sentinel string. -/
def resolveContact (referring receiving : Json) : Except PyError Json :=
  match get_contact_info referring with
  | .error e => .error e
  | .ok c => if isNoContact c then get_contact_info receiving else .ok c

/-! ## Collaborator stubs (agent.py lines 135-204) -/

/-- `draft_request_email` (agent.py lines 135-174): reads both provider
names for the prompt (raising on a non-dict provider), then returns the
parsed response, or Python `None` (here `Json.null`) when the service
returned no content or non-JSON content. -/
def draft_request_email (missing : List String) (referring receiving : Json)
    (resp : LLMResponse) : Except PyError Json :=
  match pyGet referring "name" (.str "Unknown") with
  | .error e => .error e
  | .ok _ =>
    match pyGet receiving "name" (.str "Unknown") with
    | .error e => .error e
    | .ok _ =>
      let _ := missing
      match resp with
      | .json j => .ok j
      | _ => .ok .null

/-- `mock_send_email` (agent.py lines 177-189): reads subject/body off the
draft (raising on a non-dict draft) and returns the sent-result record.
`time` stands for `datetime.datetime.now().isoformat()`. -/
def mock_send_email (email_data contact_info : Json) (time : String) :
    Except PyError Json :=
  match email_data with
  | .obj _ =>
    .ok (.obj [("status", .str "sent"), ("timestamp", .str time),
               ("recipient", contact_info)])
  | _ => .error .attributeError

/-- `mock_emr_sync` (agent.py lines 192-204): logs referral/patient/
provider names — `referral_data.get('patient', {}).get('name', ...)`
raises when a present sub-record is not a dict — then returns the synced
result record. -/
def mock_emr_sync (referral_data : Json) (time : String) :
    Except PyError Json :=
  match referral_data with
  | .obj fs =>
    match objGetD fs "patient" (.obj []), objGetD fs "referring_provider" (.obj []),
          objGetD fs "receiving_provider" (.obj []) with
    | .obj _, .obj _, .obj _ =>
      .ok (.obj [("status", .str "synced"), ("timestamp", .str time),
                 ("referral_id", objGetD fs "referral_id" .null)])
    | _, _, _ => .error .attributeError
  | _ => .error .attributeError

/-! ## Router/Dispatcher — the branch of `main` at agent.py lines 271-311 -/

/-- One status write (`update_redis_status`, agent.py lines 207-218),
keyed by document id. -/
structure StatusRecord where
  doc_id : Json
  status : String
  additional_info : Json
  structured_data : Json

/-- A collaborator invocation, recorded so routing theorems can speak
about which downstream actions a branch performs. -/
inductive Call where
  | emrSync (data : Json)
  | draftEmail (missing : List String)
  | sendEmail (draft contact : Json)

/-- `structured_data.get('referring_provider', {})` (agent.py line 285). -/
def referringOf (sfs : List (String × Json)) : Json :=
  objGetD sfs "referring_provider" (.obj [])

/-- `structured_data.get('receiving_provider', {})` (agent.py line 286). -/
def receivingOf (sfs : List (String × Json)) : Json :=
  objGetD sfs "receiving_provider" (.obj [])

/-- A missing-list rendered as the JSON value stored in
`additional_info` (`{"missing_fields": missing_fields, ...}`). -/
def missingJson (missing : List String) : Json :=
  .arr (missing.map .str)

/-- The incomplete branch of `main` (agent.py lines 277-311): read the
two providers and the referral id off the structured data (three `.get`
calls on it), call `draft_request_email`, and on a truthy draft resolve a
contact and send; a falsy draft records `email_draft_failed`. -/
def routeIncomplete (doc_id structured : Json) (missing : List String)
    (draftResp : LLMResponse) (time : String) :
    List Call × Except PyError StatusRecord :=
  match structured with
  | .obj sfs =>
    match draft_request_email missing (referringOf sfs) (receivingOf sfs) draftResp with
    | .error e => ([.draftEmail missing], .error e)
    | .ok draft =>
      if truthy draft then
        match resolveContact (referringOf sfs) (receivingOf sfs) with
        | .error e => ([.draftEmail missing], .error e)
        | .ok contact =>
          match mock_send_email draft contact time with
          | .error e => ([.draftEmail missing], .error e)
          | .ok emailRes =>
            ([.draftEmail missing, .sendEmail draft contact],
             .ok ⟨doc_id, "missing_fields_email_sent",
                  .obj [("missing_fields", missingJson missing),
                        ("email_result", emailRes),
                        ("contact_info", contact)],
                  structured⟩)
      else
        ([.draftEmail missing],
         .ok ⟨doc_id, "email_draft_failed",
              .obj [("missing_fields", missingJson missing)], structured⟩)
  | _ => ([], .error .attributeError)

/-- The routing decision of `main` (agent.py lines 271-311), given the
validation outcome. -/
def routeReferral (doc_id structured : Json) (is_complete : Bool)
    (missing : List String) (draftResp : LLMResponse) (time : String) :
    List Call × Except PyError StatusRecord :=
  if is_complete then
    match mock_emr_sync structured time with
    | .ok emr => ([.emrSync structured],
                  .ok ⟨doc_id, "emr_synced", emr, structured⟩)
    | .error e => ([.emrSync structured], .error e)
  else
    routeIncomplete doc_id structured missing draftResp time

/-! ## Per-job pipeline and its boundary — `main` (agent.py lines 241-323) -/

/-- The non-deterministic inputs of one job's pipeline run: the parse
outcome of the dequeued job text, the two language-model call outcomes,
and the wall-clock timestamp. -/
structure JobEnv where
  jobText : Parsed
  extractResp : LLMResponse
  draftResp : LLMResponse
  time : String

/-- The body of the `try:` block for one dequeued document (agent.py
lines 250-315): parse the job, extract, branch on `None`, validate,
route.  An `Except.error` is an exception escaping the body; every
successful run performs exactly one status write. -/
def runJobBody (env : JobEnv) : List Call × Except PyError StatusRecord :=
  match env.jobText with
  | .notJson => ([], .error .jsonDecodeError)
  | .json job =>
    match job with
    | .obj jfs =>
      match llm_assistend_extraction env.extractResp with
      | .null =>
        ([], .ok ⟨objGetD jfs "document_id" (.str "unknown"), "extraction_failed",
                  .str "LLM extraction failed", .null⟩)
      | structured =>
        match check_required_fields structured with
        | .error e => ([], .error e)
        | .ok (is_complete, missing) =>
          routeReferral (objGetD jfs "document_id" (.str "unknown")) structured
            is_complete missing env.draftResp env.time
    | _ => ([], .error .attributeError)

/-- Outcome of one job at the pipeline boundary: completed with its one
status write, caught-and-logged (the handler at agent.py line 317 writes
no status), or re-raised past the boundary (the handler at line 320). -/
inductive JobOutcome where
  | completed (r : StatusRecord)
  | caughtLogged (e : PyError)
  | raised (e : PyError)

/-- Which exception classes the first handler catches
(`except (json.JSONDecodeError, KeyError, TypeError)`). -/
def isCaught : PyError → Bool
  | .jsonDecodeError => true
  | .keyError => true
  | .typeError => true
  | .attributeError => false

/-- The `try/except` boundary of `main` (agent.py lines 249, 317-323):
caught classes are logged only; everything else is re-raised. -/
def handleJob (env : JobEnv) : JobOutcome :=
  match (runJobBody env).2 with
  | .ok r => .completed r
  | .error e => if isCaught e then .caughtLogged e else .raised e

/-! ## Status boundary — `get_document_status` (main.py lines 136-162) -/

/-- An HTTP reply of the status endpoint: the assembled status payload,
or an `HTTPException` with its code and detail string. -/
inductive StatusReply where
  | ok (status timestamp additional_info structured_data : Json)
  | httpError (code : Nat) (detail : String)

/-- `get_document_status` given the Redis read for `document:{id}`:
`none` models a missing or expired key (`redis_client.get` returns
`None`, which fails the `isinstance(doc_data, str)` check); a stored
string is then parsed, and any exception inside the handler — a
`json.loads` failure or attribute access on a non-dict payload — is
converted by the final `except Exception` clause. -/
def get_document_status (stored : Option Parsed) : StatusReply :=
  match stored with
  | none => .httpError 500 "Corrupt document data in Redis"
  | some .notJson => .httpError 500 "Failed to retrieve document status"
  | some (.json j) =>
    match j with
    | .obj fs =>
      .ok (objGetD fs "status" .null) (objGetD fs "timestamp" .null)
        (objGetD fs "additional_info" .null) (objGetD fs "structured_data" .null)
    | _ => .httpError 500 "Failed to retrieve document status"

/-! ## Specification-side predicates

These definitions transcribe the *spec's* wording (not the code) and are
compared against the code's behavior in the claim theorems. -/

/-- The spec's missing condition for a dotted path: some traversal segment
is absent or not a record, or the terminal value is empty/absent. -/
def pathMissing (data : Json) (field : String) : Bool :=
  match traversePath data (splitParts field) with
  | none => true
  | some cur => !truthy cur

/-- The annotation appended to a `.contact` path reported missing by the
contact-alternative rule. -/
def annSuffix : String := " (phone, email, or address)"

/-- The precondition named by claim C9: every required `.contact` path
whose traversal reaches a present, non-empty terminal reaches a record. -/
def contactsOk (data : Json) : Bool :=
  requiredFields.all fun field =>
    if strEndsWith field ".contact" then
      match traversePath data (splitParts field) with
      | some c => if truthy c then isObj c else true
      | none => true
    else true

/-- Whether the validation input is a record or falsy (the shapes on
which `check_required_fields` cannot raise from the top-level branch). -/
def isObjOrFalsy (data : Json) : Bool := isObj data || !truthy data

/-- A provider record with none of the three contact channels: it is a
dict whose `contact` (defaulting to `{}`) is a dict with phone, email and
address all empty/absent. -/
def hasNoChannels (p : Json) : Bool :=
  match p with
  | .obj pfs =>
    match objGetD pfs "contact" (.obj []) with
    | .obj cfs => !anyThree cfs
    | _ => false
  | _ => false

/-- A provider on which `get_contact_info` cannot raise: a dict whose
`contact` (defaulting to `{}`) is a dict. -/
def providerOk : Json → Bool
  | .obj pfs => isObj (objGetD pfs "contact" (.obj []))
  | _ => false

/-- The spec's single-provider contact priority: the first non-empty of
email, phone, address, else `none`. -/
def specChannel (p : Json) : Option Json :=
  match p with
  | .obj pfs =>
    match objGetD pfs "contact" (.obj []) with
    | .obj cfs =>
      if truthy (objGetD cfs "email" .null) then some (objGetD cfs "email" .null)
      else if truthy (objGetD cfs "phone" .null) then some (objGetD cfs "phone" .null)
      else if truthy (objGetD cfs "address" .null) then some (objGetD cfs "address" .null)
      else none
    | _ => none
  | _ => none

/-- The value `get_contact_info` produces for a well-formed provider:
the priority channel, or the sentinel string when there is none. -/
def codeChannel (p : Json) : Json := (specChannel p).getD (.str noContactMsg)

/-! ## Helper lemmas -/

theorem checkFields_mem (data : Json) (fs : List String) (m : List String)
    (h : checkFields data fs = .ok m) (x : String) :
    x ∈ m ↔ ∃ f ∈ fs, ∃ e, checkField data f = .ok e ∧ x ∈ e := by
  induction fs generalizing m with
  | nil =>
    simp only [checkFields] at h
    cases h
    simp
  | cons f rest ih =>
    simp only [checkFields] at h
    cases hf : checkField data f with
    | error e => rw [hf] at h; cases h
    | ok e =>
      rw [hf] at h
      cases hr : checkFields data rest with
      | error e' => rw [hr] at h; cases h
      | ok r =>
        rw [hr] at h
        cases h
        constructor
        · intro hx
          rcases List.mem_append.mp hx with hx | hx
          · exact ⟨f, by simp, e, hf, hx⟩
          · rcases (ih r hr).mp hx with ⟨g, hg, e', he', hx'⟩
            exact ⟨g, by simp [hg], e', he', hx'⟩
        · rintro ⟨g, hg, e', he', hx'⟩
          rcases List.mem_cons.mp hg with rfl | hg
          · rw [hf] at he'; cases he'; exact List.mem_append.mpr (.inl hx')
          · exact List.mem_append.mpr (.inr ((ih r hr).mpr ⟨g, hg, e', he', hx'⟩))

theorem checkFields_ok (data : Json) (fs : List String)
    (h : ∀ f ∈ fs, ∃ l, checkField data f = .ok l) :
    ∃ m, checkFields data fs = .ok m := by
  induction fs with
  | nil => exact ⟨[], rfl⟩
  | cons f rest ih =>
    obtain ⟨l, hl⟩ := h f (by simp)
    obtain ⟨m, hm⟩ := ih (fun g hg => h g (by simp [hg]))
    exact ⟨l ++ m, by simp only [checkFields, hl, hm]⟩

theorem checkFields_nil_all (data : Json) (fs : List String)
    (h : checkFields data fs = .ok []) :
    ∀ f ∈ fs, checkField data f = .ok [] := by
  induction fs with
  | nil => simp
  | cons f rest ih =>
    simp only [checkFields] at h
    cases hf : checkField data f with
    | error e => rw [hf] at h; cases h
    | ok e =>
      rw [hf] at h
      cases hr : checkFields data rest with
      | error e' => rw [hr] at h; cases h
      | ok r =>
        rw [hr] at h
        have h2 : e ++ r = [] := by
          change Except.ok (e ++ r) = Except.ok [] at h
          exact Except.ok.inj h
        obtain ⟨he, hre⟩ := List.append_eq_nil.mp h2
        intro g hg
        rcases List.mem_cons.mp hg with rfl | hg
        · rw [hf, he]
        · exact ih (hre ▸ hr) g hg

theorem checkField_shape (data : Json) (g : String) (e : List String)
    (h : checkField data g = .ok e) (x : String) (hx : x ∈ e) :
    x = g ∨ x = g ++ annSuffix := by
  unfold checkField at h
  repeat' split at h
  all_goals cases h
  all_goals simp only [List.mem_singleton, List.not_mem_nil] at hx
  all_goals first
    | exact hx.elim
    | exact .inl hx
    | exact .inr hx

theorem checkField_dotted_missing (data : Json) (field : String)
    (hd : strContains field "." = true) (hm : pathMissing data field = true) :
    checkField data field = .ok [field] := by
  unfold pathMissing at hm
  cases ht : traversePath data (splitParts field) with
  | none => simp [checkField, hd, ht]
  | some cur =>
    rw [ht] at hm
    simp only [Bool.not_eq_true'] at hm
    simp [checkField, hd, ht, hm]

theorem checkField_top_missing (sfs : List (String × Json)) (field : String)
    (hd : strContains field "." = false) (hsp : splitParts field = [field])
    (hm : pathMissing (.obj sfs) field = true) :
    checkField (.obj sfs) field = .ok [field] := by
  unfold checkField
  unfold pathMissing at hm
  rw [hsp] at hm
  rw [if_neg (by simp [hd])]
  cases hl : objLookup sfs field with
  | none => simp [hl]
  | some v =>
    simp only [traversePath, hl] at hm
    simp only [Bool.not_eq_true'] at hm
    simp [hl, hm]

theorem checkField_contact_val (data : Json) (field : String)
    (cfs : List (String × Json))
    (hd : strContains field "." = true) (hc : strEndsWith field ".contact" = true)
    (ht : traversePath data (splitParts field) = some (.obj cfs))
    (hne : truthy (.obj cfs) = true) :
    checkField data field =
      .ok (if anyThree cfs then [] else [field ++ annSuffix]) := by
  cases ha : anyThree cfs with
  | true => simp [checkField, hd, hc, ht, hne, contactAny, ha]
  | false => simp [checkField, hd, hc, ht, hne, contactAny, ha, annSuffix]

theorem checkField_dotted_ok (data : Json) (field : String)
    (hd : strContains field "." = true) (hc : strEndsWith field ".contact" = false) :
    ∃ l, checkField data field = .ok l := by
  cases ht : traversePath data (splitParts field) with
  | none => exact ⟨[field], by simp [checkField, hd, ht]⟩
  | some cur =>
    cases htr : truthy cur with
    | false => exact ⟨[field], by simp [checkField, hd, ht, htr]⟩
    | true => exact ⟨[], by simp [checkField, hd, ht, htr, hc]⟩

theorem checkField_contact_ok (data : Json) (field : String)
    (hd : strContains field "." = true)
    (hwf : ∀ cur, traversePath data (splitParts field) = some cur →
           truthy cur = true → isObj cur = true) :
    ∃ l, checkField data field = .ok l := by
  cases ht : traversePath data (splitParts field) with
  | none => exact ⟨[field], by simp [checkField, hd, ht]⟩
  | some cur =>
    cases htr : truthy cur with
    | false => exact ⟨[field], by simp [checkField, hd, ht, htr]⟩
    | true =>
      have hobj := hwf cur ht htr
      cases cur with
      | obj cfs =>
        cases hew : strEndsWith field ".contact" with
        | false => exact ⟨[], by simp [checkField, hd, ht, htr, hew]⟩
        | true =>
          cases ha : anyThree cfs with
          | true =>
            exact ⟨[], by simp [checkField, hd, ht, htr, hew, contactAny, ha]⟩
          | false =>
            exact ⟨[field ++ " (phone, email, or address)"],
                   by simp [checkField, hd, ht, htr, hew, contactAny, ha]⟩
      | null => exact absurd hobj (by simp [isObj])
      | bool b => exact absurd hobj (by simp [isObj])
      | num n => exact absurd hobj (by simp [isObj])
      | str s => exact absurd hobj (by simp [isObj])
      | arr es => exact absurd hobj (by simp [isObj])

theorem checkField_top_ok (sfs : List (String × Json)) (field : String)
    (hd : strContains field "." = false) :
    ∃ l, checkField (.obj sfs) field = .ok l := by
  refine ⟨match objLookup sfs field with
          | none => [field]
          | some v => if truthy v then [] else [field], ?_⟩
  simp [checkField, hd]

theorem traverse_cons_truthy (data : Json) (p : String) (ps : List String)
    (v : Json) (h : traversePath data (p :: ps) = some v) :
    truthy data = true ∧ isObj data = true := by
  cases data with
  | obj fs =>
    cases fs with
    | nil => simp [traversePath, objLookup] at h
    | cons a l => exact ⟨rfl, rfl⟩
  | null => simp [traversePath] at h
  | bool b => simp [traversePath] at h
  | num n => simp [traversePath] at h
  | str s => simp [traversePath] at h
  | arr es => simp [traversePath] at h

theorem check_ok_parts (data : Json) (c : Bool) (m : List String)
    (hne : truthy data = true)
    (h : check_required_fields data = .ok (c, m)) :
    checkFields data requiredFields = .ok m ∧ c = m.isEmpty := by
  unfold check_required_fields at h
  rw [if_pos hne] at h
  cases hcf : checkFields data requiredFields with
  | error e => rw [hcf] at h; cases h
  | ok miss =>
    rw [hcf] at h
    cases h
    exact ⟨rfl, rfl⟩

theorem annSuffix_neq_required :
    ∀ f ∈ requiredFields, ∀ g ∈ requiredFields, ¬ f ++ annSuffix = g := by decide

theorem annSuffix_inj_required :
    ∀ f ∈ requiredFields, ∀ g ∈ requiredFields, ¬ g = f →
      ¬ f ++ annSuffix = g ++ annSuffix := by decide

theorem required_neq_annSuffix :
    ∀ f ∈ requiredFields, ∀ g ∈ requiredFields, ¬ f = g ++ annSuffix := by decide

/-- C8: `check_required_fields` on a null/absent input returns
`complete = false` with a single sentinel entry, and the sentinel is not
any of the required dotted paths. -/
theorem validate_null_sentinel :
    check_required_fields .null = .ok (false, ["All fields - invalid JSON response"]) ∧
    (["All fields - invalid JSON response"] : List String).length = 1 ∧
    requiredFields.all (fun f => f != "All fields - invalid JSON response") = true :=
  ⟨rfl, rfl, by decide⟩

/-- C2, counterexample: the empty record is falsy in Python, so
`check_required_fields {}` takes the sentinel branch: every required
path's traversal fails on it, yet the returned missing list is the
single sentinel entry and contains no required path. -/
theorem validation_paths_cex :
    check_required_fields (.obj []) = .ok (false, ["All fields - invalid JSON response"]) ∧
    pathMissing (.obj []) "referring_provider.name" = true ∧
    ("referring_provider.name" : String) ∉ ["All fields - invalid JSON response"] :=
  ⟨rfl, rfl, by decide⟩

/-- C2 (amended): for every non-empty record on which
`check_required_fields` returns, each required path whose traversal hits
an absent segment, a non-record segment, or an empty/absent terminal is
reported in the missing list under its exact name, and the complete flag
is true iff the missing list is empty. -/
theorem validation_paths_amended (sfs : List (String × Json))
    (hne : truthy (.obj sfs) = true) (c : Bool) (m : List String)
    (hok : check_required_fields (.obj sfs) = .ok (c, m)) :
    (∀ field ∈ requiredFields, pathMissing (.obj sfs) field = true → field ∈ m) ∧
    (c = true ↔ m = []) := by
  obtain ⟨hcf, hc⟩ := check_ok_parts _ c m hne hok
  constructor
  · intro field hf hmiss
    have hmem := (checkFields_mem _ _ _ hcf field).mpr
    simp only [requiredFields, List.mem_cons, List.mem_singleton,
      List.not_mem_nil, or_false] at hf
    rcases hf with rfl | rfl | rfl | rfl | rfl | rfl | rfl | rfl
    case inl =>
      exact hmem ⟨_, by decide, [_], checkField_dotted_missing _ _ (by decide) hmiss, by simp⟩
    all_goals first
      | exact hmem ⟨_, by decide, [_], checkField_dotted_missing _ _ (by decide) hmiss, by simp⟩
      | exact hmem ⟨_, by decide, [_],
          checkField_top_missing sfs _ (by decide) (by decide) hmiss, by simp⟩
  · subst hc
    cases m <;> simp

/-- A referral record with both providers present and contactable but no
patient record and no requested action. -/
def wSfs : List (String × Json) := [
  ("referring_provider", .obj [("name", .str "Dr. Alpha"),
    ("contact", .obj [("email", .str "alpha@clinic.org")])]),
  ("receiving_provider", .obj [("name", .str "Dr. Beta"),
    ("contact", .obj [("phone", .str "555-0100")])]),
  ("reason_for_referral", .str "evaluation")]

/-- C2, witness: the amended theorem applied to `wSfs`, whose absent
`patient` record makes `patient.name` a reported missing path. -/
theorem validation_paths_amended_witness :
    ("patient.name" : String) ∈ ["patient.name", "patient.date_of_birth", "requested_action"] ∧
    (false = true ↔ (["patient.name", "patient.date_of_birth", "requested_action"] : List String) = []) := by
  have h := validation_paths_amended wSfs rfl false
    ["patient.name", "patient.date_of_birth", "requested_action"] rfl
  exact ⟨h.1 "patient.name" (by decide) rfl, h.2⟩

/-- A referral whose referring provider's contact record is present but
empty (`{}`). -/
def emptyContactData : Json :=
  .obj [("referring_provider", .obj [("name", .str "Dr. Alpha"), ("contact", .obj [])])]

/-- C3, counterexample: the `.contact` path resolves to a present contact
record (`{}`) with all three of phone, email, address absent/empty, yet
the path is reported under its bare name, not with the contact
annotation — because the empty record is falsy, the annotated branch is
never reached. -/
theorem contact_rule_cex :
    traversePath emptyContactData (splitParts "referring_provider.contact") = some (.obj []) ∧
    anyThree [] = false ∧
    check_required_fields emptyContactData = .ok (false,
      ["referring_provider.contact", "receiving_provider.name", "receiving_provider.contact",
       "patient.name", "patient.date_of_birth", "reason_for_referral", "requested_action"]) ∧
    ("referring_provider.contact" ++ annSuffix) ∉
      ["referring_provider.contact", "receiving_provider.name", "receiving_provider.contact",
       "patient.name", "patient.date_of_birth", "reason_for_referral", "requested_action"] :=
  ⟨rfl, rfl, rfl, by decide⟩

/-- C3 (amended): when a required `.contact` path resolves to a present
*non-empty* contact record, the annotated entry is in the missing list
iff phone, email and address are all empty/absent, and when at least one
is non-empty the path is not reported missing in any form. -/
theorem contact_rule_amended (data : Json) (field : String)
    (cfs : List (String × Json))
    (hf : field ∈ requiredFields) (hend : strEndsWith field ".contact" = true)
    (ht : traversePath data (splitParts field) = some (.obj cfs))
    (hne : truthy (.obj cfs) = true)
    (c : Bool) (m : List String)
    (hok : check_required_fields data = .ok (c, m)) :
    ((field ++ annSuffix) ∈ m ↔ anyThree cfs = false) ∧
    (anyThree cfs = true → field ∉ m) := by
  simp only [requiredFields, List.mem_cons, List.mem_singleton,
    List.not_mem_nil, or_false] at hf
  rcases hf with rfl | rfl | rfl | rfl | rfl | rfl | rfl | rfl
  all_goals first
    | exact absurd hend (by decide)
    | skip
  all_goals {
    have hdata := traverse_cons_truthy _ _ _ _ ht
    obtain ⟨hcf, _⟩ := check_ok_parts _ c m hdata.1 hok
    have hval := checkField_contact_val _ _ cfs (by decide) (by decide) ht hne
    constructor
    · constructor
      · intro hmem
        cases ha : anyThree cfs with
        | false => rfl
        | true =>
          exfalso
          rw [ha] at hval
          rcases (checkFields_mem _ _ _ hcf _).mp hmem with ⟨g, hg, e, hge, hxe⟩
          simp only [requiredFields, List.mem_cons, List.mem_singleton,
            List.not_mem_nil, or_false] at hg
          rcases hg with rfl | rfl | rfl | rfl | rfl | rfl | rfl | rfl
          all_goals first
            | (rw [hval] at hge
               cases hge
               simp at hxe)
            | (rcases checkField_shape _ _ _ hge _ hxe with h | h
               · exact absurd h (by decide)
               · exact absurd h (by decide))
      · intro ha
        rw [ha] at hval
        simp only [Bool.false_eq_true, if_false] at hval
        exact (checkFields_mem _ _ _ hcf _).mpr
          ⟨_, by decide, [_ ++ annSuffix], hval, by simp⟩
    · intro ha hmem
      rw [ha] at hval
      rcases (checkFields_mem _ _ _ hcf _).mp hmem with ⟨g, hg, e, hge, hxe⟩
      simp only [requiredFields, List.mem_cons, List.mem_singleton,
        List.not_mem_nil, or_false] at hg
      rcases hg with rfl | rfl | rfl | rfl | rfl | rfl | rfl | rfl
      all_goals first
        | (rw [hval] at hge
           cases hge
           simp at hxe)
        | (rcases checkField_shape _ _ _ hge _ hxe with h | h
           · exact absurd h (by decide)
           · exact absurd h (by decide))
  }

/-- A referral whose referring provider's contact record is present with
all three channels as empty strings. -/
def w3Sfs : List (String × Json) := [
  ("referring_provider", .obj [("name", .str "Dr. Alpha"),
    ("contact", .obj [("phone", .str ""), ("email", .str ""), ("address", .str "")])]),
  ("receiving_provider", .obj [("name", .str "Dr. Beta"),
    ("contact", .obj [("phone", .str "555-0100")])]),
  ("patient", .obj [("name", .str "Pat"), ("date_of_birth", .str "1990-01-01")]),
  ("reason_for_referral", .str "evaluation"),
  ("requested_action", .str "consult")]

/-- C3, witness: the amended theorem applied to `w3Sfs`, whose referring
contact has `phone=""`, `email=""`, `address=""`: the annotated entry is
reported. -/
theorem contact_rule_amended_witness :
    ("referring_provider.contact" ++ annSuffix) ∈
      ["referring_provider.contact (phone, email, or address)"] ∧
    (anyThree [("phone", .str ""), ("email", .str ""), ("address", .str "")] = true →
      ("referring_provider.contact" : String) ∉
        ["referring_provider.contact (phone, email, or address)"]) := by
  have h := contact_rule_amended (.obj w3Sfs) "referring_provider.contact"
    [("phone", .str ""), ("email", .str ""), ("address", .str "")]
    (by decide) rfl rfl rfl false
    ["referring_provider.contact (phone, email, or address)"] rfl
  exact ⟨h.1.mpr rfl, h.2⟩

/-- C9, counterexample: the integer `5` satisfies the claim's
precondition vacuously (no `.contact` traversal reaches any terminal),
yet `check_required_fields` raises a `TypeError` on it, at the `in` test
of the first top-level required field. -/
theorem validation_total_cex :
    contactsOk (.num 5) = true ∧
    check_required_fields (.num 5) = .error .typeError :=
  ⟨rfl, rfl⟩

/-- A referral whose referring provider's contact is a non-empty string,
on which the contact special check's `.get` calls raise. -/
def badContactData : Json :=
  .obj [("referring_provider", .obj [("name", .str "Dr. Alpha"),
    ("contact", .str "555-0100")])]

/-- C9 (amended): `check_required_fields` is total on inputs that are
records (or falsy) and satisfy the contact precondition; on a referral
whose contact is a non-empty string it raises an `AttributeError`
instead of reporting the path missing. -/
theorem validation_total_amended :
    (∀ data, isObjOrFalsy data = true → contactsOk data = true →
      ∃ p, check_required_fields data = .ok p) ∧
    check_required_fields badContactData = .error .attributeError := by
  constructor
  · intro data hshape hco
    cases hne : truthy data with
    | false =>
      exact ⟨(false, ["All fields - invalid JSON response"]),
             by simp [check_required_fields, hne]⟩
    | true =>
      have hobj : isObj data = true := by
        unfold isObjOrFalsy at hshape
        rw [hne] at hshape
        simpa using hshape
      obtain ⟨sfs, rfl⟩ : ∃ sfs, data = .obj sfs := by
        cases data <;> first | exact ⟨_, rfl⟩ | simp [isObj] at hobj
      have hco' : ∀ field ∈ requiredFields, ∀ cur,
          traversePath (.obj sfs) (splitParts field) = some cur →
          truthy cur = true → strEndsWith field ".contact" = true →
          isObj cur = true := by
        intro field hf cur ht htr hend
        have hfld := List.all_eq_true.mp hco field hf
        rw [if_pos hend, ht] at hfld
        simpa [htr] using hfld
      have hall : ∀ f ∈ requiredFields, ∃ l, checkField (.obj sfs) f = .ok l := by
        intro f hf
        have hmem := hf
        simp only [requiredFields, List.mem_cons, List.mem_singleton,
          List.not_mem_nil, or_false] at hf
        rcases hf with rfl | rfl | rfl | rfl | rfl | rfl | rfl | rfl
        all_goals first
          | exact checkField_dotted_ok _ _ (by decide) (by decide)
          | exact checkField_contact_ok _ _ (by decide)
              (fun cur ht htr => hco' _ hmem cur ht htr (by decide))
          | exact checkField_top_ok _ _ (by decide)
      obtain ⟨m, hm⟩ := checkFields_ok _ _ hall
      exact ⟨(m.isEmpty, m), by simp [check_required_fields, hne, hm]⟩
  · rfl

/-- C9, witness: the amended totality theorem applied to a record input
(one whose patient field is a string), which returns a pair. -/
theorem validation_total_amended_witness :
    ∃ p, check_required_fields (.obj [("patient", .str "Bob")]) = .ok p :=
  validation_total_amended.1 (.obj [("patient", .str "Bob")]) rfl rfl

/-- C1, counterexample: a response that is valid JSON but not a
StructuredReferral record at all (`[1]`) is returned as parsed, not
rejected as `null` — `llm_assistend_extraction` performs no schema
check. -/
theorem extraction_schema_cex :
    llm_assistend_extraction (.json (.arr [.num 1])) = .arr [.num 1] ∧
    isObj (.arr [.num 1]) = false ∧
    Json.arr [.num 1] ≠ .null :=
  ⟨rfl, rfl, by simp⟩

/-- C1 (amended): `llm_assistend_extraction` returns null exactly when
the response is absent, is not valid JSON, or is the JSON literal
`null`; any other valid JSON is returned as parsed even when it misses
the schema.  In the null case the pipeline records terminal status
`extraction_failed` with null `structured_data` (and invokes no
collaborator). -/
theorem extraction_null_amended :
    (∀ r, llm_assistend_extraction r = .null ↔
      (r = .noResponse ∨ r = .notJson ∨ r = .json .null)) ∧
    (∀ env : JobEnv, ∀ jfs, env.jobText = .json (.obj jfs) →
      llm_assistend_extraction env.extractResp = .null →
      runJobBody env = ([], .ok ⟨objGetD jfs "document_id" (.str "unknown"),
        "extraction_failed", .str "LLM extraction failed", .null⟩)) := by
  constructor
  · intro r
    cases r with
    | noResponse => simp [llm_assistend_extraction]
    | notJson => simp [llm_assistend_extraction]
    | json j => cases j <;> simp [llm_assistend_extraction]
  · intro env jfs hjob hnull
    obtain ⟨jt, er, dr, t⟩ := env
    simp only at hjob hnull
    subst hjob
    simp [runJobBody, hnull]

/-- C1, witness: the amended theorem applied to a job whose extraction
response is non-JSON text. -/
theorem extraction_null_amended_witness :
    runJobBody ⟨.json (.obj [("document_id", .str "doc-7")]), .notJson, .noResponse, "t0"⟩ =
      ([], .ok ⟨.str "doc-7", "extraction_failed", .str "LLM extraction failed", .null⟩) := by
  have h := extraction_null_amended.2
    ⟨.json (.obj [("document_id", .str "doc-7")]), .notJson, .noResponse, "t0"⟩
    [("document_id", .str "doc-7")] rfl rfl
  simpa using h

/-- C5, counterexample: the referring provider's email is non-empty —
it is literally the sentinel text "No contact information available" —
so by the claim the resolution should return it without consulting the
receiving provider; the code instead compares the resolved value against
that string and falls back to the receiving provider's email. -/
theorem contact_priority_cex :
    truthy (.str "No contact information available") = true ∧
    resolveContact
      (.obj [("contact", .obj [("email", .str "No contact information available")])])
      (.obj [("contact", .obj [("email", .str "beta@clinic.org")])]) =
      .ok (.str "beta@clinic.org") ∧
    Json.str "beta@clinic.org" ≠ .str "No contact information available" := by
  refine ⟨rfl, rfl, fun h => ?_⟩
  injection h with h'
  exact absurd h' (by decide)

/-- C5 (amended): for a single well-formed provider `get_contact_info`
returns the first non-empty channel in the order email, phone, address
(else the sentinel string); the resolution consults the receiving
provider exactly when the value resolved for the referring provider
*equals the sentinel string* — i.e. when the referring provider has no
channel, or when its best channel is literally that string. -/
theorem contact_priority_amended (ref rcv : Json)
    (h1 : providerOk ref = true) (h2 : providerOk rcv = true) :
    get_contact_info ref = .ok (codeChannel ref) ∧
    resolveContact ref rcv =
      .ok (if isNoContact (codeChannel ref) then codeChannel rcv
           else codeChannel ref) := by
  have key : ∀ p, providerOk p = true → get_contact_info p = .ok (codeChannel p) := by
    intro p hp
    cases p with
    | obj pfs =>
      unfold providerOk at hp
      cases hc : objGetD pfs "contact" (.obj []) with
      | obj cfs =>
        simp only [get_contact_info, codeChannel, specChannel, hc]
        split_ifs <;> simp
      | null => simp [hc, isObj] at hp
      | bool b => simp [hc, isObj] at hp
      | num n => simp [hc, isObj] at hp
      | str s => simp [hc, isObj] at hp
      | arr es => simp [hc, isObj] at hp
    | null => simp [providerOk] at hp
    | bool b => simp [providerOk] at hp
    | num n => simp [providerOk] at hp
    | str s => simp [providerOk] at hp
    | arr es => simp [providerOk] at hp
  refine ⟨key ref h1, ?_⟩
  cases hn : isNoContact (codeChannel ref) with
  | true => simp [resolveContact, key ref h1, hn, key rcv h2]
  | false => simp [resolveContact, key ref h1, hn]

/-- C5, witness: a referring provider with both an email and a phone
resolves to the email without consulting the receiving provider. -/
theorem contact_priority_amended_witness :
    resolveContact
      (.obj [("contact", .obj [("phone", .str "555-0100"),
                               ("email", .str "alpha@clinic.org")])])
      (.obj [("contact", .obj [("email", .str "beta@clinic.org")])]) =
      .ok (.str "alpha@clinic.org") := by
  have h := contact_priority_amended
    (.obj [("contact", .obj [("phone", .str "555-0100"),
                             ("email", .str "alpha@clinic.org")])])
    (.obj [("contact", .obj [("email", .str "beta@clinic.org")])]) rfl rfl
  simpa [codeChannel, specChannel, isNoContact, objGetD, objLookup, noContactMsg]
    using h.2

theorem routeIncomplete_spec (doc_id structured : Json) (missing : List String)
    (dr : LLMResponse) (t : String) (r : StatusRecord)
    (h : (routeIncomplete doc_id structured missing dr t).2 = .ok r) :
    r.structured_data = structured ∧ r.doc_id = doc_id ∧
    (r.status = "missing_fields_email_sent" ∨ r.status = "email_draft_failed") := by
  unfold routeIncomplete at h
  repeat' split at h
  all_goals cases h
  all_goals simp

theorem routeReferral_spec (doc_id structured : Json) (c : Bool)
    (missing : List String) (dr : LLMResponse) (t : String) (r : StatusRecord)
    (h : (routeReferral doc_id structured c missing dr t).2 = .ok r) :
    r.structured_data = structured ∧ r.doc_id = doc_id ∧
    (r.status = "emr_synced" ∨ r.status = "missing_fields_email_sent" ∨
     r.status = "email_draft_failed") := by
  unfold routeReferral at h
  split at h
  · repeat' split at h
    all_goals cases h
    all_goals simp
  · obtain ⟨h1, h2, h3⟩ := routeIncomplete_spec _ _ _ _ _ _ h
    exact ⟨h1, h2, .inr h3⟩

theorem routeIncomplete_trace (doc_id structured : Json) (missing : List String)
    (dr : LLMResponse) (t : String) :
    (routeIncomplete doc_id structured missing dr t).1 = [] ∨
    (routeIncomplete doc_id structured missing dr t).1 = [.draftEmail missing] ∨
    ∃ d ct, (routeIncomplete doc_id structured missing dr t).1 =
      [.draftEmail missing, .sendEmail d ct] := by
  unfold routeIncomplete
  repeat' split
  all_goals simp

/-- A referral containing every required field together with a referral
id, used as the complete-referral witness input. -/
def wCompleteSfs : List (String × Json) := [
  ("referral_id", .str "R-1"),
  ("referring_provider", .obj [("name", .str "Dr. Alpha"),
    ("contact", .obj [("email", .str "alpha@clinic.org")])]),
  ("receiving_provider", .obj [("name", .str "Dr. Beta"),
    ("contact", .obj [("phone", .str "555-0100")])]),
  ("patient", .obj [("name", .str "Pat"), ("date_of_birth", .str "1990-01-01")]),
  ("reason_for_referral", .str "evaluation"),
  ("requested_action", .str "consult")]

theorem subObj_of_checkField_nil (sfs : List (String × Json)) (f sub rest : String)
    (hd : strContains f "." = true) (hsp : splitParts f = [sub, rest])
    (h : checkField (.obj sfs) f = .ok []) :
    isObj (objGetD sfs sub (.obj [])) = true := by
  unfold checkField at h
  rw [if_pos hd, hsp] at h
  cases hl : objLookup sfs sub with
  | none => simp [traversePath, hl] at h
  | some p =>
    cases p with
    | obj pfs => simp [objGetD, hl, isObj]
    | null => simp [traversePath, hl] at h
    | bool b => simp [traversePath, hl] at h
    | num n => simp [traversePath, hl] at h
    | str s => simp [traversePath, hl] at h
    | arr es => simp [traversePath, hl] at h

/-- C4: routing branch selection is determined by the validation
outcome.  When `complete` holds the router invokes exactly the EMR-sync
collaborator and records `emr_synced` with the sync result as
`additional_info`; when it does not, the router attempts the email-draft
path and never invokes an EMR sync, and a failed (falsy) draft records
`email_draft_failed` with the missing list (under the `missing_fields`
key) as `additional_info`; every successfully written record carries the
structured data. -/
theorem routing_deterministic (doc_id : Json) (sfs : List (String × Json))
    (c : Bool) (missing : List String) (dr : LLMResponse) (t : String)
    (hcheck : check_required_fields (.obj sfs) = .ok (c, missing)) :
    (c = true →
      (routeReferral doc_id (.obj sfs) c missing dr t).1 = [.emrSync (.obj sfs)] ∧
      ∃ emr, mock_emr_sync (.obj sfs) t = .ok emr ∧
        (routeReferral doc_id (.obj sfs) c missing dr t).2 =
          .ok ⟨doc_id, "emr_synced", emr, .obj sfs⟩) ∧
    (c = false →
      Call.draftEmail missing ∈ (routeReferral doc_id (.obj sfs) c missing dr t).1 ∧
      (∀ d, Call.emrSync d ∉ (routeReferral doc_id (.obj sfs) c missing dr t).1) ∧
      (∀ dj, draft_request_email missing (referringOf sfs) (receivingOf sfs) dr = .ok dj →
        truthy dj = false →
        (routeReferral doc_id (.obj sfs) c missing dr t).2 =
          .ok ⟨doc_id, "email_draft_failed",
               .obj [("missing_fields", missingJson missing)], .obj sfs⟩)) ∧
    (∀ r, (routeReferral doc_id (.obj sfs) c missing dr t).2 = .ok r →
      r.structured_data = .obj sfs) := by
  refine ⟨?_, ?_, fun r h => (routeReferral_spec _ _ _ _ _ _ _ h).1⟩
  · rintro rfl
    cases hne : truthy (.obj sfs) with
    | false =>
      rw [check_required_fields, if_neg (by simp [hne])] at hcheck
      cases hcheck
    | true =>
      obtain ⟨hcf, hc⟩ := check_ok_parts _ _ _ hne hcheck
      have hmiss : missing = [] := by
        cases missing with
        | nil => rfl
        | cons a l => simp at hc
      subst hmiss
      have hall := checkFields_nil_all _ _ hcf
      have hpat := subObj_of_checkField_nil sfs "patient.name" "patient" "name"
        (by decide) rfl (hall _ (by decide))
      have hrp := subObj_of_checkField_nil sfs "referring_provider.name"
        "referring_provider" "name" (by decide) rfl (hall _ (by decide))
      have hrv := subObj_of_checkField_nil sfs "receiving_provider.name"
        "receiving_provider" "name" (by decide) rfl (hall _ (by decide))
      obtain ⟨pfs, hp⟩ : ∃ l, objGetD sfs "patient" (.obj []) = .obj l := by
        cases h : objGetD sfs "patient" (.obj []) <;>
          first | exact ⟨_, rfl⟩ | (rw [h] at hpat; simp [isObj] at hpat)
      obtain ⟨rfs, hr⟩ : ∃ l, objGetD sfs "referring_provider" (.obj []) = .obj l := by
        cases h : objGetD sfs "referring_provider" (.obj []) <;>
          first | exact ⟨_, rfl⟩ | (rw [h] at hrp; simp [isObj] at hrp)
      obtain ⟨vfs, hv⟩ : ∃ l, objGetD sfs "receiving_provider" (.obj []) = .obj l := by
        cases h : objGetD sfs "receiving_provider" (.obj []) <;>
          first | exact ⟨_, rfl⟩ | (rw [h] at hrv; simp [isObj] at hrv)
      have hemr : mock_emr_sync (.obj sfs) t =
          .ok (.obj [("status", .str "synced"), ("timestamp", .str t),
                     ("referral_id", objGetD sfs "referral_id" .null)]) := by
        simp [mock_emr_sync, hp, hr, hv]
      exact ⟨by simp [routeReferral, hemr], _, hemr, by simp [routeReferral, hemr]⟩
  · rintro rfl
    refine ⟨?_, ?_, ?_⟩
    · rcases routeIncomplete_trace doc_id (.obj sfs) missing dr t with h | h | ⟨d, ct, h⟩
      · exfalso
        unfold routeIncomplete at h
        repeat' split at h
        all_goals simp_all
      · simp [routeReferral, h]
      · simp [routeReferral, h]
    · intro d
      rcases routeIncomplete_trace doc_id (.obj sfs) missing dr t with h | h | ⟨d', ct, h⟩ <;>
        simp [routeReferral, h]
    · intro dj hdj htr
      simp [routeReferral, routeIncomplete, hdj, htr]

/-- C4, witness: the theorem applied to a complete referral — the
router invokes EMR sync and records `emr_synced` — discharging the
validation hypothesis by computation. -/
theorem routing_deterministic_witness :
    (routeReferral (.str "d-1") (.obj wCompleteSfs) true [] .noResponse "t0").1 =
      [.emrSync (.obj wCompleteSfs)] ∧
    ∃ emr, mock_emr_sync (.obj wCompleteSfs) "t0" = .ok emr ∧
      (routeReferral (.str "d-1") (.obj wCompleteSfs) true [] .noResponse "t0").2 =
        .ok ⟨.str "d-1", "emr_synced", emr, .obj wCompleteSfs⟩ :=
  (routing_deterministic (.str "d-1") wCompleteSfs true [] .noResponse "t0" rfl).1 rfl

theorem hasNoChannels_sentinel (p : Json) (hp : hasNoChannels p = true) :
    get_contact_info p = .ok (.str noContactMsg) := by
  cases p with
  | obj pfs =>
    unfold hasNoChannels at hp
    cases hc : objGetD pfs "contact" (.obj []) with
    | obj cfs =>
      simp only [hc, Bool.not_eq_eq_eq_not, Bool.not_true] at hp
      unfold anyThree at hp
      simp only [Bool.or_eq_false_iff] at hp
      obtain ⟨⟨hph, hem⟩, had⟩ := hp
      simp [get_contact_info, hc, hph, hem, had]
    | null => simp [hc] at hp
    | bool b => simp [hc] at hp
    | num n => simp [hc] at hp
    | str s => simp [hc] at hp
    | arr es => simp [hc] at hp
  | null => simp [hasNoChannels] at hp
  | bool b => simp [hasNoChannels] at hp
  | num n => simp [hasNoChannels] at hp
  | str s => simp [hasNoChannels] at hp
  | arr es => simp [hasNoChannels] at hp

theorem hasNoChannels_obj (p : Json) (hp : hasNoChannels p = true) :
    isObj p = true := by
  cases p <;> simp_all [hasNoChannels, isObj]

/-- C10: for an incomplete referral whose draft is a truthy record and
both of whose providers have no contact channel at all, the router still
invokes the email-send collaborator — addressed to the literal sentinel
string — and records `missing_fields_email_sent` whose
`additional_info.contact_info` is that sentinel; there is no distinct
no-contact failure branch. -/
theorem no_contact_email_sent (doc_id : Json) (sfs : List (String × Json))
    (missing : List String) (dfs : List (String × Json)) (t : String)
    (_hcheck : check_required_fields (.obj sfs) = .ok (false, missing))
    (h1 : hasNoChannels (referringOf sfs) = true)
    (h2 : hasNoChannels (receivingOf sfs) = true)
    (hd : truthy (.obj dfs) = true) :
    routeReferral doc_id (.obj sfs) false missing (.json (.obj dfs)) t =
      ([.draftEmail missing, .sendEmail (.obj dfs) (.str noContactMsg)],
       .ok ⟨doc_id, "missing_fields_email_sent",
            .obj [("missing_fields", missingJson missing),
                  ("email_result", .obj [("status", .str "sent"), ("timestamp", .str t),
                                         ("recipient", .str noContactMsg)]),
                  ("contact_info", .str noContactMsg)],
            .obj sfs⟩) := by
  have hrs := hasNoChannels_sentinel _ h1
  have hvs := hasNoChannels_sentinel _ h2
  obtain ⟨rfs, hr⟩ : ∃ l, referringOf sfs = .obj l := by
    have := hasNoChannels_obj _ h1
    cases h : referringOf sfs <;>
      first | exact ⟨_, rfl⟩ | (rw [h] at this; simp [isObj] at this)
  obtain ⟨vfs, hv⟩ : ∃ l, receivingOf sfs = .obj l := by
    have := hasNoChannels_obj _ h2
    cases h : receivingOf sfs <;>
      first | exact ⟨_, rfl⟩ | (rw [h] at this; simp [isObj] at this)
  have hdraft : draft_request_email missing (referringOf sfs) (receivingOf sfs)
      (.json (.obj dfs)) = .ok (.obj dfs) := by
    rw [hr, hv]
    simp [draft_request_email, pyGet]
  have hresolve : resolveContact (referringOf sfs) (receivingOf sfs) =
      .ok (.str noContactMsg) := by
    simp [resolveContact, hrs, hvs, isNoContact]
  simp [routeReferral, routeIncomplete, hdraft, hd, hresolve, mock_send_email]

/-- A referral record in which neither provider has any contact channel
(the referring contact holds only an empty phone, the receiving contact
is an empty record). -/
def wNoContactSfs : List (String × Json) := [
  ("referring_provider", .obj [("name", .str "Dr. Alpha"),
    ("contact", .obj [("phone", .str "")])]),
  ("receiving_provider", .obj [("name", .str "Dr. Beta"), ("contact", .obj [])])]

/-- The missing list `check_required_fields` computes for
`wNoContactSfs`. -/
def wNoContactMissing : List String :=
  ["referring_provider.contact (phone, email, or address)",
   "receiving_provider.contact", "patient.name", "patient.date_of_birth",
   "reason_for_referral", "requested_action"]

/-- C10, witness: the theorem applied to `wNoContactSfs` with a concrete
truthy draft, all hypotheses discharged by computation. -/
theorem no_contact_email_sent_witness :
    routeReferral (.str "d-2") (.obj wNoContactSfs) false wNoContactMissing
      (.json (.obj [("subject", .str "Missing info"), ("body", .str "Please send"),
                    ("recipient", .str "unknown")])) "t1" =
      ([.draftEmail wNoContactMissing,
        .sendEmail (.obj [("subject", .str "Missing info"), ("body", .str "Please send"),
                          ("recipient", .str "unknown")]) (.str noContactMsg)],
       .ok ⟨.str "d-2", "missing_fields_email_sent",
            .obj [("missing_fields", missingJson wNoContactMissing),
                  ("email_result", .obj [("status", .str "sent"), ("timestamp", .str "t1"),
                                         ("recipient", .str noContactMsg)]),
                  ("contact_info", .str noContactMsg)],
            .obj wNoContactSfs⟩) :=
  no_contact_email_sent (.str "d-2") wNoContactSfs wNoContactMissing
    [("subject", .str "Missing info"), ("body", .str "Please send"),
     ("recipient", .str "unknown")] "t1" rfl rfl rfl rfl

theorem runJobBody_spec (env : JobEnv) (r : StatusRecord)
    (h : (runJobBody env).2 = .ok r) :
    r.status = "extraction_failed" ∨ r.status = "emr_synced" ∨
    r.status = "missing_fields_email_sent" ∨ r.status = "email_draft_failed" := by
  unfold runJobBody at h
  repeat' split at h
  all_goals first
    | exact .inr (routeReferral_spec _ _ _ _ _ _ _ h).2.2
    | (cases h; simp)
    | cases h

/-- The job environment of the C6 counterexample: a well-formed job
whose extraction response is the JSON string `"hello"` — not a record —
so the router's `structured_data.get('referring_provider', {})` raises
an `AttributeError`, which the first handler does not catch. -/
def cexEnv : JobEnv :=
  ⟨.json (.obj [("document_id", .str "doc-1"),
                ("extracted_text", .str "referral text")]),
   .json (.str "hello"), .noResponse, "t0"⟩

/-- C6, counterexample: on `cexEnv` the per-job pipeline raises an
`AttributeError` past its own boundary (the second handler re-raises),
and no terminal StatusRecord is written for the document. -/
theorem job_boundary_cex : handleJob cexEnv = .raised .attributeError := rfl

/-- C6 (amended): at the per-job boundary every run either completes
with its single terminal StatusRecord (one of the four terminal
statuses), or hits a `JSONDecodeError`/`KeyError`/`TypeError` that the
first handler catches and only logs — writing no StatusRecord — or
re-raises past the boundary (in this code only an `AttributeError` can
escape), again writing no StatusRecord. -/
theorem job_boundary_amended (env : JobEnv) :
    (∃ r, handleJob env = .completed r ∧
      (r.status = "extraction_failed" ∨ r.status = "emr_synced" ∨
       r.status = "missing_fields_email_sent" ∨ r.status = "email_draft_failed")) ∨
    (∃ e, handleJob env = .caughtLogged e ∧ isCaught e = true) ∨
    handleJob env = .raised .attributeError := by
  cases hb : (runJobBody env).2 with
  | ok r => exact .inl ⟨r, by simp [handleJob, hb], runJobBody_spec env r hb⟩
  | error e =>
    cases e with
    | jsonDecodeError =>
      exact .inr (.inl ⟨.jsonDecodeError, by simp [handleJob, hb, isCaught], rfl⟩)
    | keyError => exact .inr (.inl ⟨.keyError, by simp [handleJob, hb, isCaught], rfl⟩)
    | typeError => exact .inr (.inl ⟨.typeError, by simp [handleJob, hb, isCaught], rfl⟩)
    | attributeError => exact .inr (.inr (by simp [handleJob, hb, isCaught]))

/-- C7, counterexample: a status query for a missing or expired entry —
`redis_client.get` returns `None` — is answered with an HTTP 500 error
("Corrupt document data in Redis"), not with an explicit
"unknown"/"not found" result. -/
theorem status_expiry_cex :
    get_document_status none = .httpError 500 "Corrupt document data in Redis" := rfl

/-- C7 (amended): for a missing/expired entry the status endpoint raises
HTTP 500 "Corrupt document data in Redis"; in every case the reply is
either the assembled status payload or an HTTP 500 with one of the two
fixed detail strings — the endpoint never surfaces an internal
exception verbatim. -/
theorem status_endpoint_amended (stored : Option Parsed) :
    (stored = none →
      get_document_status stored = .httpError 500 "Corrupt document data in Redis") ∧
    ((∃ s ts ai sd, get_document_status stored = .ok s ts ai sd) ∨
     get_document_status stored = .httpError 500 "Corrupt document data in Redis" ∨
     get_document_status stored = .httpError 500 "Failed to retrieve document status") := by
  constructor
  · rintro rfl
    rfl
  · cases stored with
    | none => exact .inr (.inl rfl)
    | some p =>
      cases p with
      | notJson => exact .inr (.inr rfl)
      | json j =>
        cases j with
        | obj fs => exact .inl ⟨_, _, _, _, rfl⟩
        | null => exact .inr (.inr rfl)
        | bool b => exact .inr (.inr rfl)
        | num n => exact .inr (.inr rfl)
        | str s => exact .inr (.inr rfl)
        | arr es => exact .inr (.inr rfl)

/-- C7, witness: the amended theorem applied at a missing/expired entry
(discharging its hypothesis) and the resulting 500 reply. -/
theorem status_endpoint_amended_witness :
    get_document_status (some (.json (.obj [("status", .str "emr_synced")]))) =
      .ok (.str "emr_synced") .null .null .null ∧
    get_document_status none = .httpError 500 "Corrupt document data in Redis" :=
  ⟨rfl, (status_endpoint_amended none).1 rfl⟩
